import Mathlib

/-!
Shallow embedding of the SPI NOR flash driver `drivers/mtd/nor/spi_nor.c`
(single-file core; the companion platform header has no algorithmic content).

Modelling conventions:
* Machine integers are `Nat` with explicit truncation where the C code
  performs a conversion: `% 256` for `uint8_t`, `% 65536` for `uint16_t`,
  `% 4294967296` for `unsigned int`/`uint32_t`, and
  `% 18446744073709551616` for `size_t`/`uint64_t`/`uintptr_t`
  (an LP64 target, matching the AArch64 builds of this firmware).
* Transport results (`spi_mem_exec_op`, `spi_mem_dirmap_read`) are
  modelled by oracles: either explicit per-step `Int` results, or an
  indexed oracle `exec : Nat -> Int` consumed with a running transaction
  counter, `0` meaning success and a negative value a transport error.
* Hardware side effects are recorded as an explicit transaction trace
  (`Txn` / `ResetAct` / `InitAct` lists), so ordering and clamping claims
  are statements about the trace.
* The polling timer (`timeout_init_us`/`timeout_elapsed`) is modelled by
  an abstract per-iteration observation stream `elapsed : Nat -> Bool`,
  and the `n`-th readiness poll by `ready : Nat -> Int`; within iteration
  `n` the code observes `elapsed n` first and then polls `ready n`.
* Numeric constants visible in the source keep their source names.
  Constants that live in project headers outside the provided sources
  (register opcodes, flag bits, errno values) are fixed to the project's
  standard values; no claim below depends on the particular numbers,
  only on flag bits being distinct and errno values being distinct and
  positive.
-/

namespace SpiNor

/-- Bit constant helper, mirrors the BIT macro. -/
def BIT (n : Nat) : Nat := 2 ^ n

/-- Write-in-progress bit of the status register (bit 0). -/
def SR_WIP : Nat := BIT 0

/-- Spansion quad-enable bit of the configuration register (bit 1). -/
def CR_QUAD_EN_SPAN : Nat := BIT 1

/-- Macronix quad-enable bit of the status register (bit 6). -/
def SR_QUAD_EN_MX : Nat := BIT 6

/-- Flag status register READY bit (bit 7): 0 = busy, 1 = ready. -/
def FSR_READY : Nat := BIT 7

/-- JEDEC manufacturer id for Spansion. -/
def SPANSION_ID : Nat := 0x01

/-- JEDEC manufacturer id for Macronix. -/
def MACRONIX_ID : Nat := 0xC2

/-- JEDEC manufacturer id for Micron. -/
def MICRON_ID : Nat := 0x2C

/-- Size of one bank window: 16 MiB. -/
def BANK_SIZE : Nat := 0x1000000

/-- Readiness polling bound in microseconds. -/
def SPI_READY_TIMEOUT_US : Nat := 40000

/-- Settle delay after a software reset, in microseconds. -/
def SPI_NOR_SRST_US : Nat := 100

/-- Device flag: consult the flag status register in the readiness check.
From the driver header (outside the provided sources): BIT(0). -/
def SPI_NOR_USE_FSR : Nat := BIT 0

/-- Device flag: use bank/extended-address switching. From the driver
header (outside the provided sources): BIT(1). -/
def SPI_NOR_USE_BANK : Nat := BIT 1

/-- Errno value for invalid argument / invalid configuration (used
negated). The claims depend only on distinctness, not the number. -/
def EINVAL : Int := 22

/-- Errno value for a timed-out wait (used negated). -/
def ETIMEDOUT : Int := 60

/-- Errno value for an unsupported operation (used negated). -/
def EOPNOTSUPP : Int := 45

/-- Opcode for the basic single-line read command (header value 0x03). -/
def SPI_NOR_OP_READ : Nat := 0x03

/-- Opcode for software reset enable (header value 0x66). -/
def SPI_NOR_OP_SRSTEN : Nat := 0x66

/-- Opcode for software reset (header value 0x99). -/
def SPI_NOR_OP_SRST : Nat := 0x99

/-- Spansion bank register read opcode (header value 0x16). -/
def SPINOR_OP_BRRD : Nat := 0x16

/-- Spansion bank register write opcode (header value 0x17). -/
def SPINOR_OP_BRWR : Nat := 0x17

/-- Generic extended-address register read opcode (header value 0xC8). -/
def SPINOR_OP_RDEAR : Nat := 0xC8

/-- Generic extended-address register write opcode (header value 0xC5). -/
def SPINOR_OP_WREAR : Nat := 0xC5

/-- Single-line bus width value. -/
def SPI_MEM_BUSWIDTH_1_LINE : Nat := 1

/-- Eight-line bus width value. -/
def SPI_MEM_BUSWIDTH_8_LINE : Nat := 8

/-- Data direction of the data phase of an operation. -/
inductive Dir where
  | din
  | dout
deriving DecidableEq, Repr

/-- The fields of `struct spi_mem_op` that the driver reads or writes on
its reusable read template: command opcode/width/bus-width, address
width/bus-width/value, data bus-width/direction/byte-count/buffer. -/
structure spi_mem_op where
  cmdOpcode : Nat
  cmdNbytes : Nat
  cmdBuswidth : Nat
  addrNbytes : Nat
  addrBuswidth : Nat
  addrVal : Nat
  dataBuswidth : Nat
  dataDir : Dir
  dataNbytes : Nat
  dataBuf : Nat
deriving DecidableEq, Repr

/-- The device descriptor `struct nor_device`: behavioral flags, declared
capacity, cached selected bank (a `uint8_t` in the source), the two
vendor-specific bank opcodes and the reusable read operation template. -/
structure nor_device where
  flags : Nat
  size : Nat
  selected_bank : Nat
  bank_read_cmd : Nat
  bank_write_cmd : Nat
  read_op : spi_mem_op
deriving DecidableEq, Repr

/-- One hardware transaction issued by the banked reader, together with
the transport's result for it. -/
inductive Txn where
  | write_en (ret : Int)
  | reg_write (opcode : Nat) (val : Nat) (ret : Int)
  | dirmap_read (addr : Nat) (nbytes : Nat) (ret : Int)
deriving DecidableEq, Repr

/-!  Readiness poller (`spi_nor_ready`, `spi_nor_wait_ready`). -/

/-- Embedding of `spi_nor_ready`: `srRead`/`fsrRead` are the transport
result and the byte delivered by the status / flag-status register reads.
Returns 0 ready, 1 busy, or the failing read's (negative) error. -/
def spi_nor_ready (flags : Nat) (srRead : Int × Nat) (fsrRead : Int × Nat) : Int :=
  if srRead.1 ≠ 0 then srRead.1
  else
    if flags &&& SPI_NOR_USE_FSR ≠ 0 then
      if fsrRead.1 ≠ 0 then fsrRead.1
      else
        if (fsrRead.2 % 256) &&& FSR_READY ≠ 0 ∧ (srRead.2 % 256) &&& SR_WIP = 0
        then 0 else 1
    else
      if (srRead.2 % 256) &&& SR_WIP = 0 then 0 else 1

/-- Embedding of `spi_nor_wait_ready`: iteration `n` first observes the
timeout (`elapsed n`), then, when not elapsed, polls `ready n` (the
result of the `n`-th `spi_nor_ready` call) and returns it when it is
at most 0.  `fuel` bounds the number of modelled iterations; `none`
means the bound was too small to reach a return. -/
def spi_nor_wait_ready (elapsed : Nat → Bool) (ready : Nat → Int) :
    Nat → Nat → Option Int
  | 0, _ => none
  | fuel + 1, n =>
    if elapsed n then some (-ETIMEDOUT)
    else if ready n ≤ 0 then some (ready n)
    else spi_nor_wait_ready elapsed ready fuel (n + 1)

theorem spi_nor_wait_ready_from (elapsed : Nat → Bool) (ready : Nat → Int)
    (n : Nat) :
    ∀ fuel k, k ≤ n → n - k < fuel →
      (∀ m, m ≤ n → elapsed m = false) →
      (∀ m, m < n → 0 < ready m) →
      ready n = 0 →
      spi_nor_wait_ready elapsed ready fuel k = some 0 := by
  intro fuel
  induction fuel with
  | zero => intro k _ h; omega
  | succ fuel ih =>
    intro k hk hf he hb hr
    unfold spi_nor_wait_ready
    rw [he k hk]
    by_cases hkn : k = n
    · subst hkn
      simp [hr]
    · have hlt : k < n := Nat.lt_of_le_of_ne hk hkn
      have hrb : 0 < ready k := hb k hlt
      have : ¬ ready k ≤ 0 := by omega
      simp only [Bool.false_eq_true, if_false, this, if_false]
      exact ih (k + 1) (by omega) (by omega) he hb hr

/-- Claim C3: in `spi_nor_wait_ready`, a readiness poll is performed after
the same iteration's deadline observation, so in an execution where the
device becomes ready exactly at the timeout boundary — the deadline falls
between the observation `elapsed n = false` that admits iteration `n` and
the poll `ready n`, all earlier polls reporting busy and all later deadline
observations reporting elapsed — the final successful check is honored and
the function returns ready (`some 0`), not the timeout error. -/
theorem wait_ready_honors_boundary_check (n fuel : Nat) (hfuel : n < fuel) :
    spi_nor_wait_ready (fun m => decide (n < m)) (fun m => if m < n then 1 else 0)
      fuel 0 = some 0 := by
  refine spi_nor_wait_ready_from _ _ n fuel 0 (Nat.zero_le n) (by omega) ?_ ?_ ?_
  · intro m hm
    simp [Nat.not_lt.mpr hm]
  · intro m hm
    simp [hm]
  · simp

/-- Witness for claim C3 at the concrete boundary index 2 with fuel 3. -/
theorem wait_ready_honors_boundary_check_witness :
    2 < 3 ∧ spi_nor_wait_ready (fun m => decide (2 < m))
      (fun m => if m < 2 then 1 else 0) 3 0 = some 0 :=
  ⟨by decide, wait_ready_honors_boundary_check 2 3 (by decide)⟩

/-- Claim C6: `spi_nor_ready` returns exactly 0 (ready), 1 (busy) or a
negative error; 0 only when the WIP bit of the status register is clear
and, when the flag-status option is set, the flag-status READY bit is set;
it never reports ready while WIP is set; and a failing register read
short-circuits with that read's error. Hypotheses: transport results are
0 or negative. -/
theorem ready_tristate_policy (flags : Nat) (sr fsr : Int × Nat)
    (hsr : sr.1 ≤ 0) (hfsr : fsr.1 ≤ 0) :
    (spi_nor_ready flags sr fsr = 0 ∨ spi_nor_ready flags sr fsr = 1 ∨
      spi_nor_ready flags sr fsr < 0) ∧
    (spi_nor_ready flags sr fsr = 0 →
      (sr.2 % 256) &&& SR_WIP = 0 ∧
      (flags &&& SPI_NOR_USE_FSR ≠ 0 → (fsr.2 % 256) &&& FSR_READY ≠ 0)) ∧
    ((sr.2 % 256) &&& SR_WIP ≠ 0 → spi_nor_ready flags sr fsr ≠ 0) ∧
    (sr.1 ≠ 0 → spi_nor_ready flags sr fsr = sr.1) ∧
    (sr.1 = 0 → flags &&& SPI_NOR_USE_FSR ≠ 0 → fsr.1 ≠ 0 →
      spi_nor_ready flags sr fsr = fsr.1) := by
  unfold spi_nor_ready
  split_ifs with h1 h2 h3 h4 h5
  · exact ⟨Or.inr (Or.inr (by omega)), fun h => absurd h h1, fun _ => h1,
      fun _ => rfl, fun h _ _ => absurd h h1⟩
  · exact ⟨Or.inr (Or.inr (by omega)), fun h => absurd h h3, fun _ => by omega,
      fun h => absurd h h1, fun _ _ _ => rfl⟩
  · exact ⟨Or.inl rfl, fun _ => ⟨h4.2, fun _ => h4.1⟩, fun h => absurd h4.2 h,
      fun h => absurd h h1, fun _ _ h => absurd h h3⟩
  · exact ⟨Or.inr (Or.inl rfl), fun h => by omega, fun _ => by omega,
      fun h => absurd h h1, fun _ _ h => absurd h h3⟩
  · exact ⟨Or.inl rfl, fun _ => ⟨h5, fun h => absurd h h2⟩, fun h => absurd h5 h,
      fun h => absurd h h1, fun _ h _ => absurd h h2⟩
  · exact ⟨Or.inr (Or.inl rfl), fun h => by omega, fun _ => by omega,
      fun h => absurd h h1, fun _ h _ => absurd h h2⟩

/-- Witness for claim C6: flag-status mode with a successful pair of reads
reporting WIP clear and READY set. -/
theorem ready_tristate_policy_witness :
    (0 : Int) ≤ 0 ∧
    ((spi_nor_ready 1 (0, 0) (0, 128) = 0 ∨ spi_nor_ready 1 (0, 0) (0, 128) = 1 ∨
      spi_nor_ready 1 (0, 0) (0, 128) < 0) ∧
    (spi_nor_ready 1 (0, 0) (0, 128) = 0 →
      ((0 : Nat) % 256) &&& SR_WIP = 0 ∧
      ((1 : Nat) &&& SPI_NOR_USE_FSR ≠ 0 → ((128 : Nat) % 256) &&& FSR_READY ≠ 0)) ∧
    (((0 : Nat) % 256) &&& SR_WIP ≠ 0 → spi_nor_ready 1 (0, 0) (0, 128) ≠ 0) ∧
    ((0 : Int) ≠ 0 → spi_nor_ready 1 (0, 0) (0, 128) = 0) ∧
    ((0 : Int) = 0 → (1 : Nat) &&& SPI_NOR_USE_FSR ≠ 0 → (0 : Int) ≠ 0 →
      spi_nor_ready 1 (0, 0) (0, 128) = 0)) :=
  ⟨by decide, ready_tristate_policy 1 (0, 0) (0, 128) (by decide) (by decide)⟩

/-!  Macronix quad enable (`spi_nor_macronix_quad_enable`). -/

/-- Embedding of `spi_nor_macronix_quad_enable`. The five hardware steps
are modelled by their transport results: the first status read
(`rdSr1`, result and delivered byte), write-enable (`wen`), the 1-byte
status register write (`wrSr`), the readiness wait (`wait`), and the
verifying status re-read (`rdSr2`). -/
def spi_nor_macronix_quad_enable (rdSr1 : Int × Nat) (wen wrSr wait : Int)
    (rdSr2 : Int × Nat) : Int :=
  if rdSr1.1 ≠ 0 then rdSr1.1
  else if (rdSr1.2 % 256) &&& SR_QUAD_EN_MX ≠ 0 then 0
  else if wen ≠ 0 then wen
  else if wrSr ≠ 0 then wrSr
  else if wait ≠ 0 then wait
  else if rdSr2.1 ≠ 0 ∨ (rdSr2.2 % 256) &&& SR_QUAD_EN_MX = 0 then -EINVAL
  else 0

/-- Counterexample to claim C4 as stated: with the quad-enable bit clear
(first status read delivers 0) and the write-enable step failing with a
plain transport error (-5), the sequence returns -5, not the
invalid-configuration code -EINVAL. -/
theorem macronix_quad_enable_step_error_not_einval :
    spi_nor_macronix_quad_enable (0, 0) (-5) 0 0 (0, 0) = -5 ∧
    (-5 : Int) ≠ -EINVAL := by
  constructor
  · rfl
  · decide

/-- Claim C4 (amended): in the Macronix quad-enable sequence, when the
quad-enable bit is not already set, only a failure of the verifying
re-read or a verification mismatch (bit still clear) yields the
invalid-configuration code -EINVAL; a failure of the write-enable,
status-register write, or wait-ready step propagates that step's own
error code. -/
theorem macronix_quad_enable_error_codes (rdSr1 : Int × Nat)
    (wen wrSr wait : Int) (rdSr2 : Int × Nat)
    (h1 : rdSr1.1 = 0) (hbit : (rdSr1.2 % 256) &&& SR_QUAD_EN_MX = 0) :
    (wen ≠ 0 → spi_nor_macronix_quad_enable rdSr1 wen wrSr wait rdSr2 = wen) ∧
    (wen = 0 → wrSr ≠ 0 →
      spi_nor_macronix_quad_enable rdSr1 wen wrSr wait rdSr2 = wrSr) ∧
    (wen = 0 → wrSr = 0 → wait ≠ 0 →
      spi_nor_macronix_quad_enable rdSr1 wen wrSr wait rdSr2 = wait) ∧
    (wen = 0 → wrSr = 0 → wait = 0 →
      (rdSr2.1 ≠ 0 ∨ (rdSr2.2 % 256) &&& SR_QUAD_EN_MX = 0) →
      spi_nor_macronix_quad_enable rdSr1 wen wrSr wait rdSr2 = -EINVAL) ∧
    (wen = 0 → wrSr = 0 → wait = 0 → rdSr2.1 = 0 →
      (rdSr2.2 % 256) &&& SR_QUAD_EN_MX ≠ 0 →
      spi_nor_macronix_quad_enable rdSr1 wen wrSr wait rdSr2 = 0) := by
  unfold spi_nor_macronix_quad_enable
  split_ifs with g1 g2 g3 g4 g5 g6
  · exact absurd h1 g1
  · exact absurd g2 (by simp [hbit])
  · exact ⟨fun _ => rfl, fun h => absurd h g3, fun h => absurd h g3,
      fun h => absurd h g3, fun h => absurd h g3⟩
  · exact ⟨fun h => absurd h (by simpa using g3), fun _ _ => rfl,
      fun _ h => absurd h g4, fun _ h => absurd h g4, fun _ h => absurd h g4⟩
  · exact ⟨fun h => absurd h (by simpa using g3), fun _ h => absurd h (by simpa using g4),
      fun _ _ _ => rfl, fun _ _ h => absurd h g5, fun _ _ h => absurd h g5⟩
  · exact ⟨fun h => absurd h (by simpa using g3), fun _ h => absurd h (by simpa using g4),
      fun _ _ h => absurd h (by simpa using g5), fun _ _ _ _ => rfl,
      fun _ _ _ hr hb => absurd (g6.resolve_left (by simp [hr])) hb⟩
  · exact ⟨fun h => absurd h (by simpa using g3), fun _ h => absurd h (by simpa using g4),
      fun _ _ h => absurd h (by simpa using g5), fun _ _ _ h => absurd h g6,
      fun _ _ _ _ _ => rfl⟩

/-- Witness for claim C4 (amended) at a concrete input: bit initially
clear, all steps succeed, verify re-read shows the bit set. -/
theorem macronix_quad_enable_error_codes_witness :
    (0 : Int) = 0 ∧ ((64 : Nat) % 256) &&& SR_QUAD_EN_MX ≠ 0 ∧
    spi_nor_macronix_quad_enable (0, 0) 0 0 0 (0, 64) = 0 :=
  ⟨rfl, by decide,
    (macronix_quad_enable_error_codes (0, 0) 0 0 0 (0, 64) rfl (by decide)).2.2.2.2
      rfl rfl rfl rfl (by decide)⟩

/-!  Bank selection primitives (`spi_nor_clean_bar`, `spi_nor_write_bar`).
Both consume an indexed transport oracle `exec` with a running
transaction counter `k`; they return the C result, the updated device,
the updated counter, and the trace of transactions issued. -/

/-- Embedding of `spi_nor_clean_bar`. Mirrors the source exactly: when
the cached bank is nonzero, `nor_dev.selected_bank` is set to 0 first
(the zeroed field doubles as the 1-byte data buffer of the register
write), write-enable is issued, then the bank register is written with
the now-zero cached value. -/
def spi_nor_clean_bar (exec : Nat → Int) (dev : nor_device) (k : Nat) :
    Int × nor_device × Nat × List Txn :=
  if dev.selected_bank = 0 then (0, dev, k, [])
  else
    let dev := { dev with selected_bank := 0 }
    if exec k ≠ 0 then (exec k, dev, k + 1, [Txn.write_en (exec k)])
    else
      (exec (k + 1), dev, k + 2,
        [Txn.write_en (exec k),
         Txn.reg_write dev.bank_write_cmd dev.selected_bank (exec (k + 1))])

/-- Embedding of `spi_nor_write_bar`. The `offset` argument is a
`uint32_t`; the target bank is computed into a `uint8_t` local. The
cached bank is updated only after both hardware steps succeed. -/
def spi_nor_write_bar (exec : Nat → Int) (dev : nor_device) (k : Nat)
    (offset : Nat) : Int × nor_device × Nat × List Txn :=
  if ((offset % 4294967296) / BANK_SIZE) % 256 = dev.selected_bank then
    (0, dev, k, [])
  else
    if exec k ≠ 0 then (exec k, dev, k + 1, [Txn.write_en (exec k)])
    else
      if exec (k + 1) ≠ 0 then
        (exec (k + 1), dev, k + 2,
          [Txn.write_en (exec k),
           Txn.reg_write dev.bank_write_cmd
             (((offset % 4294967296) / BANK_SIZE) % 256) (exec (k + 1))])
      else
        (0, { dev with selected_bank := ((offset % 4294967296) / BANK_SIZE) % 256 },
          k + 2,
          [Txn.write_en (exec k),
           Txn.reg_write dev.bank_write_cmd
             (((offset % 4294967296) / BANK_SIZE) % 256) (exec (k + 1))])

/-- Standalone read template used by concrete witnesses. -/
def op0 : spi_mem_op :=
  { cmdOpcode := SPI_NOR_OP_READ, cmdNbytes := 1,
    cmdBuswidth := SPI_MEM_BUSWIDTH_1_LINE, addrNbytes := 3,
    addrBuswidth := SPI_MEM_BUSWIDTH_1_LINE, addrVal := 0,
    dataBuswidth := SPI_MEM_BUSWIDTH_1_LINE, dataDir := Dir.din,
    dataNbytes := 0, dataBuf := 0 }

/-- Counterexample to claim C5 as stated: a device with cached bank 1
whose write-enable transaction fails (-5). `spi_nor_clean_bar` returns
the error, yet the cached `selected_bank` is 0 — the cache was zeroed
before the first hardware step, not after both succeeded — contradicting
"the cached selected_bank retains its pre-call nonzero value". -/
theorem clean_bar_failure_zeroes_cache :
    (spi_nor_clean_bar (fun _ => -5)
      { flags := SPI_NOR_USE_BANK, size := 0x2000000, selected_bank := 1,
        bank_read_cmd := SPINOR_OP_RDEAR, bank_write_cmd := SPINOR_OP_WREAR,
        read_op := op0 } 0).1 = -5 ∧
    (spi_nor_clean_bar (fun _ => -5)
      { flags := SPI_NOR_USE_BANK, size := 0x2000000, selected_bank := 1,
        bank_read_cmd := SPINOR_OP_RDEAR, bank_write_cmd := SPINOR_OP_WREAR,
        read_op := op0 } 0).2.1.selected_bank = 0 ∧
    (1 : Nat) ≠ 0 := by
  refine ⟨rfl, rfl, by decide⟩

/-- Claim C5 (amended): `spi_nor_clean_bar` is a no-op issuing no
transaction when the cached bank is already 0; when it is nonzero, the
cached bank is set to 0 first, then write-enable is issued followed by a
bank-register write of the (now zero) cached value — so after the call
the cached bank is 0 even when a hardware step failed. -/
theorem clean_bar_cache_and_ops (exec : Nat → Int) (dev : nor_device) (k : Nat) :
    (dev.selected_bank = 0 → spi_nor_clean_bar exec dev k = (0, dev, k, [])) ∧
    (dev.selected_bank ≠ 0 →
      (spi_nor_clean_bar exec dev k).2.1 = { dev with selected_bank := 0 } ∧
      ((spi_nor_clean_bar exec dev k).2.2.2 = [Txn.write_en (exec k)] ∨
       (spi_nor_clean_bar exec dev k).2.2.2 =
         [Txn.write_en (exec k),
          Txn.reg_write dev.bank_write_cmd 0 (exec (k + 1))])) := by
  unfold spi_nor_clean_bar
  split_ifs with h1 h2
  · exact ⟨fun _ => rfl, fun h => absurd h1 h⟩
  · exact ⟨fun h => absurd h h1, fun _ => ⟨rfl, Or.inl rfl⟩⟩
  · exact ⟨fun h => absurd h h1, fun _ => ⟨rfl, Or.inr rfl⟩⟩

/-- Witness for claim C5 (amended) at a concrete device with cached
bank 1 and an all-success oracle. -/
theorem clean_bar_cache_and_ops_witness :
    ({ flags := SPI_NOR_USE_BANK, size := 0x2000000, selected_bank := 1,
       bank_read_cmd := SPINOR_OP_RDEAR, bank_write_cmd := SPINOR_OP_WREAR,
       read_op := op0 } : nor_device).selected_bank ≠ 0 ∧
    (spi_nor_clean_bar (fun _ => 0)
      { flags := SPI_NOR_USE_BANK, size := 0x2000000, selected_bank := 1,
        bank_read_cmd := SPINOR_OP_RDEAR, bank_write_cmd := SPINOR_OP_WREAR,
        read_op := op0 } 0).2.1 =
      { flags := SPI_NOR_USE_BANK, size := 0x2000000, selected_bank := 0,
        bank_read_cmd := SPINOR_OP_RDEAR, bank_write_cmd := SPINOR_OP_WREAR,
        read_op := op0 } := by
  refine ⟨by decide, ?_⟩
  exact (clean_bar_cache_and_ops (fun _ => 0)
    { flags := SPI_NOR_USE_BANK, size := 0x2000000, selected_bank := 1,
      bank_read_cmd := SPINOR_OP_RDEAR, bank_write_cmd := SPINOR_OP_WREAR,
      read_op := op0 } 0).2 (by decide) |>.1

/-!  Banked linear reader (`spi_nor_read`). -/

/-- One bulk chunk: issues the direct-mapped read for the template's
current address and byte count; on success advances the template's
address and buffer, on failure runs the best-effort `spi_nor_clean_bar`
and propagates the original error. -/
def spi_nor_read_step (exec : Nat → Int) (dev : nor_device) (k : Nat) :
    Int × nor_device × Nat × List Txn :=
  if exec k ≠ 0 then
    let cb := spi_nor_clean_bar exec dev (k + 1)
    (exec k, cb.2.1, cb.2.2.1,
      Txn.dirmap_read dev.read_op.addrVal dev.read_op.dataNbytes (exec k) ::
        cb.2.2.2)
  else
    (0, { dev with
            read_op.addrVal :=
              (dev.read_op.addrVal + dev.read_op.dataNbytes) % 18446744073709551616,
            read_op.dataBuf :=
              (dev.read_op.dataBuf + dev.read_op.dataNbytes) % 18446744073709551616 },
      k + 1,
      [Txn.dirmap_read dev.read_op.addrVal dev.read_op.dataNbytes 0])

/-- The bank-window remainder `remain_len` of the read loop, computed —
as in the source — as the 32-bit product `BANK_SIZE * (selected_bank + 1)`
minus the 64-bit template address, in 64-bit arithmetic. -/
def bankRemain (dev : nor_device) : Nat :=
  (18446744073709551616 +
    (BANK_SIZE * (dev.selected_bank + 1)) % 4294967296 -
    dev.read_op.addrVal % 18446744073709551616) % 18446744073709551616

/-- The chunk loop of `spi_nor_read` plus its epilogue. Arguments after
`fuel`: current device, transaction counter, remaining length, the
accumulated bytes-read output and the accumulated transaction trace.
When banking is enabled the chunk length is clamped with the bank-window
remainder `bankRemain`. `none` means the iteration bound was exhausted. -/
def spi_nor_read_loop (exec : Nat → Int) :
    Nat → nor_device → Nat → Nat → Nat → List Txn →
    Option (Int × nor_device × Nat × List Txn)
  | 0, _, _, _, _, _ => none
  | fuel + 1, dev, k, length, lr, tr =>
    if length = 0 then
      if dev.flags &&& SPI_NOR_USE_BANK ≠ 0 then
        let cb := spi_nor_clean_bar exec dev k
        some (cb.1, cb.2.1, lr, tr ++ cb.2.2.2)
      else some (0, dev, lr, tr)
    else if dev.flags &&& SPI_NOR_USE_BANK ≠ 0 then
      let wb := spi_nor_write_bar exec dev k (dev.read_op.addrVal % 4294967296)
      if wb.1 ≠ 0 then some (wb.1, wb.2.1, lr, tr ++ wb.2.2.2)
      else
        let nbytes := (min length (bankRemain wb.2.1)) % 4294967296
        let st := spi_nor_read_step exec
          { wb.2.1 with read_op.dataNbytes := nbytes } wb.2.2.1
        if st.1 ≠ 0 then some (st.1, st.2.1, lr, tr ++ wb.2.2.2 ++ st.2.2.2)
        else
          spi_nor_read_loop exec fuel st.2.1 st.2.2.1 (length - nbytes)
            (lr + nbytes) (tr ++ wb.2.2.2 ++ st.2.2.2)
    else
      let nbytes := length % 4294967296
      let st := spi_nor_read_step exec { dev with read_op.dataNbytes := nbytes } k
      if st.1 ≠ 0 then some (st.1, st.2.1, lr, tr ++ st.2.2.2)
      else
        spi_nor_read_loop exec fuel st.2.1 st.2.2.1 (length - nbytes)
          (lr + nbytes) (tr ++ st.2.2.2)

/-- Embedding of `spi_nor_read`: zeroes the bytes-read output, seeds the
template's address (a `uint64_t` assigned from the `unsigned int`
offset) and data buffer from the call arguments, and runs the chunk
loop. The result is the C return value, the final device state, the
bytes-read output and the transaction trace. -/
def spi_nor_read (exec : Nat → Int) (fuel : Nat) (dev : nor_device)
    (offset buffer length : Nat) :
    Option (Int × nor_device × Nat × List Txn) :=
  spi_nor_read_loop exec fuel
    { dev with read_op.addrVal := offset % 4294967296,
               read_op.dataBuf := buffer % 18446744073709551616 }
    0 (length % 18446744073709551616) 0 []

/-!  Trace observables used by the claims about `spi_nor_read`. -/

/-- Bytes transferred by the successfully completed bulk chunk
transactions of a trace. -/
def goodBytes : List Txn → Nat
  | [] => 0
  | Txn.dirmap_read _ n r :: ts => (if r = 0 then n else 0) + goodBytes ts
  | Txn.write_en _ :: ts => goodBytes ts
  | Txn.reg_write _ _ _ :: ts => goodBytes ts

/-- A transaction whose data span stays inside one BANK_SIZE-aligned
window; register transactions trivially qualify. -/
def txnInBank : Txn → Bool
  | Txn.dirmap_read a n _ => decide (a + n ≤ (a / BANK_SIZE + 1) * BANK_SIZE)
  | Txn.write_en _ => true
  | Txn.reg_write _ _ _ => true

/-- The trace ends in a failed write-enable or a failed register write:
the signature of a bank-select step (`spi_nor_write_bar`) failing. -/
def bankSelectFailed (tr : List Txn) : Bool :=
  match tr.getLast? with
  | some (Txn.write_en r) => r != 0
  | some (Txn.reg_write _ _ r) => r != 0
  | _ => false

theorem goodBytes_append (a b : List Txn) :
    goodBytes (a ++ b) = goodBytes a + goodBytes b := by
  induction a with
  | nil => simp [goodBytes]
  | cons t ts ih =>
    cases t <;> simp [goodBytes, ih, Nat.add_assoc]

/-- Full case analysis of `spi_nor_clean_bar`. -/
theorem spi_nor_clean_bar_spec (exec : Nat → Int) (dev : nor_device) (k : Nat) :
    (dev.selected_bank = 0 ∧ spi_nor_clean_bar exec dev k = (0, dev, k, [])) ∨
    (dev.selected_bank ≠ 0 ∧ exec k ≠ 0 ∧
      spi_nor_clean_bar exec dev k =
        (exec k, { dev with selected_bank := 0 }, k + 1,
         [Txn.write_en (exec k)])) ∨
    (dev.selected_bank ≠ 0 ∧ exec k = 0 ∧
      spi_nor_clean_bar exec dev k =
        (exec (k + 1), { dev with selected_bank := 0 }, k + 2,
         [Txn.write_en (exec k),
          Txn.reg_write dev.bank_write_cmd 0 (exec (k + 1))])) := by
  unfold spi_nor_clean_bar
  split_ifs with h1 h2
  · exact Or.inl ⟨h1, rfl⟩
  · exact Or.inr (Or.inl ⟨h1, h2, rfl⟩)
  · exact Or.inr (Or.inr ⟨h1, by simpa using h2, rfl⟩)

/-- Full case analysis of `spi_nor_write_bar`. -/
theorem spi_nor_write_bar_spec (exec : Nat → Int) (dev : nor_device) (k : Nat)
    (offset : Nat) :
    (((offset % 4294967296) / BANK_SIZE) % 256 = dev.selected_bank ∧
      spi_nor_write_bar exec dev k offset = (0, dev, k, [])) ∨
    (((offset % 4294967296) / BANK_SIZE) % 256 ≠ dev.selected_bank ∧
      exec k ≠ 0 ∧
      spi_nor_write_bar exec dev k offset =
        (exec k, dev, k + 1, [Txn.write_en (exec k)])) ∨
    (((offset % 4294967296) / BANK_SIZE) % 256 ≠ dev.selected_bank ∧
      exec k = 0 ∧ exec (k + 1) ≠ 0 ∧
      spi_nor_write_bar exec dev k offset =
        (exec (k + 1), dev, k + 2,
         [Txn.write_en (exec k),
          Txn.reg_write dev.bank_write_cmd
            (((offset % 4294967296) / BANK_SIZE) % 256) (exec (k + 1))])) ∨
    (((offset % 4294967296) / BANK_SIZE) % 256 ≠ dev.selected_bank ∧
      exec k = 0 ∧ exec (k + 1) = 0 ∧
      spi_nor_write_bar exec dev k offset =
        (0, { dev with selected_bank := ((offset % 4294967296) / BANK_SIZE) % 256 },
         k + 2,
         [Txn.write_en (exec k),
          Txn.reg_write dev.bank_write_cmd
            (((offset % 4294967296) / BANK_SIZE) % 256) (exec (k + 1))])) := by
  unfold spi_nor_write_bar
  split_ifs with h1 h2 h3
  · exact Or.inl ⟨h1, rfl⟩
  · exact Or.inr (Or.inl ⟨h1, h2, rfl⟩)
  · exact Or.inr (Or.inr (Or.inl ⟨h1, by simpa using h2, h3, rfl⟩))
  · exact Or.inr (Or.inr (Or.inr
      ⟨h1, by simpa using h2, by simpa using h3, rfl⟩))

/-- Full case analysis of `spi_nor_read_step`. -/
theorem spi_nor_read_step_spec (exec : Nat → Int) (dev : nor_device) (k : Nat) :
    (exec k = 0 ∧ spi_nor_read_step exec dev k =
      (0, { dev with
              read_op.addrVal :=
                (dev.read_op.addrVal + dev.read_op.dataNbytes) % 18446744073709551616,
              read_op.dataBuf :=
                (dev.read_op.dataBuf + dev.read_op.dataNbytes) % 18446744073709551616 },
        k + 1,
        [Txn.dirmap_read dev.read_op.addrVal dev.read_op.dataNbytes 0])) ∨
    (exec k ≠ 0 ∧ spi_nor_read_step exec dev k =
      (exec k, (spi_nor_clean_bar exec dev (k + 1)).2.1,
        (spi_nor_clean_bar exec dev (k + 1)).2.2.1,
        Txn.dirmap_read dev.read_op.addrVal dev.read_op.dataNbytes (exec k) ::
          (spi_nor_clean_bar exec dev (k + 1)).2.2.2)) := by
  unfold spi_nor_read_step
  split_ifs with h1
  · exact Or.inr ⟨h1, rfl⟩
  · have h0 : exec k = 0 := by simpa using h1
    rw [h0]
    exact Or.inl ⟨rfl, rfl⟩

/-!  Small preservation lemmas about the read-loop building blocks. -/

theorem clean_bar_read_op (exec : Nat → Int) (dev : nor_device) (k : Nat) :
    (spi_nor_clean_bar exec dev k).2.1.read_op = dev.read_op := by
  rcases spi_nor_clean_bar_spec exec dev k with ⟨_, h⟩ | ⟨_, _, h⟩ | ⟨_, _, h⟩ <;>
    rw [h]

theorem clean_bar_flags (exec : Nat → Int) (dev : nor_device) (k : Nat) :
    (spi_nor_clean_bar exec dev k).2.1.flags = dev.flags := by
  rcases spi_nor_clean_bar_spec exec dev k with ⟨_, h⟩ | ⟨_, _, h⟩ | ⟨_, _, h⟩ <;>
    rw [h]

theorem clean_bar_bank (exec : Nat → Int) (dev : nor_device) (k : Nat) :
    (spi_nor_clean_bar exec dev k).2.1.selected_bank = 0 := by
  rcases spi_nor_clean_bar_spec exec dev k with ⟨h0, h⟩ | ⟨_, _, h⟩ | ⟨_, _, h⟩ <;>
    rw [h]
  exact h0

theorem clean_bar_goodBytes (exec : Nat → Int) (dev : nor_device) (k : Nat) :
    goodBytes (spi_nor_clean_bar exec dev k).2.2.2 = 0 := by
  rcases spi_nor_clean_bar_spec exec dev k with ⟨_, h⟩ | ⟨_, _, h⟩ | ⟨_, _, h⟩ <;>
    rw [h] <;> simp [goodBytes]

theorem clean_bar_inBank (exec : Nat → Int) (dev : nor_device) (k : Nat) :
    ∀ t ∈ (spi_nor_clean_bar exec dev k).2.2.2, txnInBank t = true := by
  rcases spi_nor_clean_bar_spec exec dev k with ⟨_, h⟩ | ⟨_, _, h⟩ | ⟨_, _, h⟩ <;>
    rw [h] <;> simp [txnInBank]

theorem write_bar_read_op (exec : Nat → Int) (dev : nor_device) (k off : Nat) :
    (spi_nor_write_bar exec dev k off).2.1.read_op = dev.read_op := by
  rcases spi_nor_write_bar_spec exec dev k off with
    ⟨_, h⟩ | ⟨_, _, h⟩ | ⟨_, _, _, h⟩ | ⟨_, _, _, h⟩ <;> rw [h]

theorem write_bar_flags (exec : Nat → Int) (dev : nor_device) (k off : Nat) :
    (spi_nor_write_bar exec dev k off).2.1.flags = dev.flags := by
  rcases spi_nor_write_bar_spec exec dev k off with
    ⟨_, h⟩ | ⟨_, _, h⟩ | ⟨_, _, _, h⟩ | ⟨_, _, _, h⟩ <;> rw [h]

theorem write_bar_fail_dev (exec : Nat → Int) (dev : nor_device) (k off : Nat)
    (h : (spi_nor_write_bar exec dev k off).1 ≠ 0) :
    (spi_nor_write_bar exec dev k off).2.1 = dev := by
  rcases spi_nor_write_bar_spec exec dev k off with
    ⟨_, he⟩ | ⟨_, _, he⟩ | ⟨_, _, _, he⟩ | ⟨_, _, _, he⟩ <;> rw [he]
  rw [he] at h
  exact absurd rfl h

theorem write_bar_ok_bank (exec : Nat → Int) (dev : nor_device) (k off : Nat)
    (h : (spi_nor_write_bar exec dev k off).1 = 0) :
    (spi_nor_write_bar exec dev k off).2.1.selected_bank =
      ((off % 4294967296) / BANK_SIZE) % 256 := by
  rcases spi_nor_write_bar_spec exec dev k off with
    ⟨hb, he⟩ | ⟨_, h1, he⟩ | ⟨_, _, h2, he⟩ | ⟨_, _, _, he⟩
  · rw [he]; exact hb.symm
  · rw [he] at h; exact absurd h h1
  · rw [he] at h; exact absurd h h2
  · rw [he]

theorem write_bar_goodBytes (exec : Nat → Int) (dev : nor_device) (k off : Nat) :
    goodBytes (spi_nor_write_bar exec dev k off).2.2.2 = 0 := by
  rcases spi_nor_write_bar_spec exec dev k off with
    ⟨_, h⟩ | ⟨_, _, h⟩ | ⟨_, _, _, h⟩ | ⟨_, _, _, h⟩ <;> rw [h] <;> simp [goodBytes]

theorem write_bar_inBank (exec : Nat → Int) (dev : nor_device) (k off : Nat) :
    ∀ t ∈ (spi_nor_write_bar exec dev k off).2.2.2, txnInBank t = true := by
  rcases spi_nor_write_bar_spec exec dev k off with
    ⟨_, h⟩ | ⟨_, _, h⟩ | ⟨_, _, _, h⟩ | ⟨_, _, _, h⟩ <;> rw [h] <;> simp [txnInBank]

theorem write_bar_fail_last (exec : Nat → Int) (dev : nor_device) (k off : Nat)
    (h : (spi_nor_write_bar exec dev k off).1 ≠ 0) :
    bankSelectFailed (spi_nor_write_bar exec dev k off).2.2.2 = true := by
  rcases spi_nor_write_bar_spec exec dev k off with
    ⟨_, he⟩ | ⟨_, h1, he⟩ | ⟨_, _, h2, he⟩ | ⟨_, _, _, he⟩
  · rw [he] at h; exact absurd rfl h
  · rw [he]; simp [bankSelectFailed, h1]
  · rw [he]; simp [bankSelectFailed, h2]
  · rw [he] at h; exact absurd rfl h

/-- Equality of the read-template fields that `spi_nor_read` must never
mutate: opcode, opcode width, address width, and every per-phase
bus-width field, plus the data direction. -/
def frame_eq (a b : spi_mem_op) : Prop :=
  a.cmdOpcode = b.cmdOpcode ∧ a.cmdNbytes = b.cmdNbytes ∧
  a.cmdBuswidth = b.cmdBuswidth ∧ a.addrNbytes = b.addrNbytes ∧
  a.addrBuswidth = b.addrBuswidth ∧ a.dataBuswidth = b.dataBuswidth ∧
  a.dataDir = b.dataDir

theorem frame_eq_refl (a : spi_mem_op) : frame_eq a a :=
  ⟨rfl, rfl, rfl, rfl, rfl, rfl, rfl⟩

theorem frame_eq_of_eq {a b : spi_mem_op} (h : a = b) : frame_eq a b := by
  rw [h]; exact frame_eq_refl b

theorem frame_eq_trans {a b c : spi_mem_op} (h1 : frame_eq a b)
    (h2 : frame_eq b c) : frame_eq a c := by
  obtain ⟨x1, x2, x3, x4, x5, x6, x7⟩ := h1
  obtain ⟨y1, y2, y3, y4, y5, y6, y7⟩ := h2
  exact ⟨x1.trans y1, x2.trans y2, x3.trans y3, x4.trans y4, x5.trans y5,
    x6.trans y6, x7.trans y7⟩

theorem read_step_frame (exec : Nat → Int) (dev : nor_device) (k : Nat) :
    frame_eq (spi_nor_read_step exec dev k).2.1.read_op dev.read_op := by
  rcases spi_nor_read_step_spec exec dev k with ⟨_, h⟩ | ⟨_, h⟩
  · rw [h]
    exact ⟨rfl, rfl, rfl, rfl, rfl, rfl, rfl⟩
  · rw [h]
    exact frame_eq_of_eq (clean_bar_read_op exec dev (k + 1))

theorem read_step_flags (exec : Nat → Int) (dev : nor_device) (k : Nat) :
    (spi_nor_read_step exec dev k).2.1.flags = dev.flags := by
  rcases spi_nor_read_step_spec exec dev k with ⟨_, h⟩ | ⟨_, h⟩
  · rw [h]
  · rw [h]
    exact clean_bar_flags exec dev (k + 1)

theorem read_step_fail_bank (exec : Nat → Int) (dev : nor_device) (k : Nat)
    (h : (spi_nor_read_step exec dev k).1 ≠ 0) :
    (spi_nor_read_step exec dev k).2.1.selected_bank = 0 := by
  rcases spi_nor_read_step_spec exec dev k with ⟨_, he⟩ | ⟨_, he⟩
  · rw [he] at h
    exact absurd rfl h
  · rw [he]
    exact clean_bar_bank exec dev (k + 1)

theorem read_step_ok_spec (exec : Nat → Int) (dev : nor_device) (k : Nat)
    (h : (spi_nor_read_step exec dev k).1 = 0) :
    spi_nor_read_step exec dev k =
      (0, { dev with
              read_op.addrVal :=
                (dev.read_op.addrVal + dev.read_op.dataNbytes) % 18446744073709551616,
              read_op.dataBuf :=
                (dev.read_op.dataBuf + dev.read_op.dataNbytes) % 18446744073709551616 },
        k + 1,
        [Txn.dirmap_read dev.read_op.addrVal dev.read_op.dataNbytes 0]) := by
  rcases spi_nor_read_step_spec exec dev k with ⟨_, he⟩ | ⟨hne, he⟩
  · exact he
  · rw [he] at h
    exact absurd h hne

theorem read_step_fail_trace (exec : Nat → Int) (dev : nor_device) (k : Nat)
    (h : (spi_nor_read_step exec dev k).1 ≠ 0) :
    (spi_nor_read_step exec dev k).2.2.2 =
      Txn.dirmap_read dev.read_op.addrVal dev.read_op.dataNbytes (exec k) ::
        (spi_nor_clean_bar exec dev (k + 1)).2.2.2 ∧ exec k ≠ 0 := by
  rcases spi_nor_read_step_spec exec dev k with ⟨_, he⟩ | ⟨hne, he⟩
  · rw [he] at h
    exact absurd rfl h
  · rw [he]
    exact ⟨rfl, hne⟩

/-- Case analysis of one unfolding of the read loop: epilogue (with or
without banking), bank-select failure, chunk failure, or a successful
chunk followed by the recursive call. -/
theorem spi_nor_read_loop_succ (exec : Nat → Int) (fuel : Nat)
    (dev : nor_device) (k length lr : Nat) (tr : List Txn) :
    (length = 0 ∧ dev.flags &&& SPI_NOR_USE_BANK ≠ 0 ∧
      spi_nor_read_loop exec (fuel + 1) dev k length lr tr =
        some ((spi_nor_clean_bar exec dev k).1,
          (spi_nor_clean_bar exec dev k).2.1, lr,
          tr ++ (spi_nor_clean_bar exec dev k).2.2.2)) ∨
    (length = 0 ∧ dev.flags &&& SPI_NOR_USE_BANK = 0 ∧
      spi_nor_read_loop exec (fuel + 1) dev k length lr tr =
        some (0, dev, lr, tr)) ∨
    (length ≠ 0 ∧ dev.flags &&& SPI_NOR_USE_BANK ≠ 0 ∧
      (spi_nor_write_bar exec dev k (dev.read_op.addrVal % 4294967296)).1 ≠ 0 ∧
      spi_nor_read_loop exec (fuel + 1) dev k length lr tr =
        some ((spi_nor_write_bar exec dev k (dev.read_op.addrVal % 4294967296)).1,
          (spi_nor_write_bar exec dev k (dev.read_op.addrVal % 4294967296)).2.1, lr,
          tr ++ (spi_nor_write_bar exec dev k (dev.read_op.addrVal % 4294967296)).2.2.2)) ∨
    (length ≠ 0 ∧ dev.flags &&& SPI_NOR_USE_BANK ≠ 0 ∧
      (spi_nor_write_bar exec dev k (dev.read_op.addrVal % 4294967296)).1 = 0 ∧
      (spi_nor_read_step exec
        { (spi_nor_write_bar exec dev k (dev.read_op.addrVal % 4294967296)).2.1 with
            read_op.dataNbytes :=
              (min length (bankRemain
                (spi_nor_write_bar exec dev k (dev.read_op.addrVal % 4294967296)).2.1)) %
                4294967296 }
        (spi_nor_write_bar exec dev k (dev.read_op.addrVal % 4294967296)).2.2.1).1 ≠ 0 ∧
      spi_nor_read_loop exec (fuel + 1) dev k length lr tr =
        some ((spi_nor_read_step exec
            { (spi_nor_write_bar exec dev k (dev.read_op.addrVal % 4294967296)).2.1 with
                read_op.dataNbytes :=
                  (min length (bankRemain
                    (spi_nor_write_bar exec dev k (dev.read_op.addrVal % 4294967296)).2.1)) %
                    4294967296 }
            (spi_nor_write_bar exec dev k (dev.read_op.addrVal % 4294967296)).2.2.1).1,
          (spi_nor_read_step exec
            { (spi_nor_write_bar exec dev k (dev.read_op.addrVal % 4294967296)).2.1 with
                read_op.dataNbytes :=
                  (min length (bankRemain
                    (spi_nor_write_bar exec dev k (dev.read_op.addrVal % 4294967296)).2.1)) %
                    4294967296 }
            (spi_nor_write_bar exec dev k (dev.read_op.addrVal % 4294967296)).2.2.1).2.1, lr,
          tr ++ (spi_nor_write_bar exec dev k (dev.read_op.addrVal % 4294967296)).2.2.2 ++
            (spi_nor_read_step exec
              { (spi_nor_write_bar exec dev k (dev.read_op.addrVal % 4294967296)).2.1 with
                  read_op.dataNbytes :=
                    (min length (bankRemain
                      (spi_nor_write_bar exec dev k (dev.read_op.addrVal % 4294967296)).2.1)) %
                      4294967296 }
              (spi_nor_write_bar exec dev k (dev.read_op.addrVal % 4294967296)).2.2.1).2.2.2)) ∨
    (length ≠ 0 ∧ dev.flags &&& SPI_NOR_USE_BANK ≠ 0 ∧
      (spi_nor_write_bar exec dev k (dev.read_op.addrVal % 4294967296)).1 = 0 ∧
      (spi_nor_read_step exec
        { (spi_nor_write_bar exec dev k (dev.read_op.addrVal % 4294967296)).2.1 with
            read_op.dataNbytes :=
              (min length (bankRemain
                (spi_nor_write_bar exec dev k (dev.read_op.addrVal % 4294967296)).2.1)) %
                4294967296 }
        (spi_nor_write_bar exec dev k (dev.read_op.addrVal % 4294967296)).2.2.1).1 = 0 ∧
      spi_nor_read_loop exec (fuel + 1) dev k length lr tr =
        spi_nor_read_loop exec fuel
          (spi_nor_read_step exec
            { (spi_nor_write_bar exec dev k (dev.read_op.addrVal % 4294967296)).2.1 with
                read_op.dataNbytes :=
                  (min length (bankRemain
                    (spi_nor_write_bar exec dev k (dev.read_op.addrVal % 4294967296)).2.1)) %
                    4294967296 }
            (spi_nor_write_bar exec dev k (dev.read_op.addrVal % 4294967296)).2.2.1).2.1
          (spi_nor_read_step exec
            { (spi_nor_write_bar exec dev k (dev.read_op.addrVal % 4294967296)).2.1 with
                read_op.dataNbytes :=
                  (min length (bankRemain
                    (spi_nor_write_bar exec dev k (dev.read_op.addrVal % 4294967296)).2.1)) %
                    4294967296 }
            (spi_nor_write_bar exec dev k (dev.read_op.addrVal % 4294967296)).2.2.1).2.2.1
          (length -
            (min length (bankRemain
              (spi_nor_write_bar exec dev k (dev.read_op.addrVal % 4294967296)).2.1)) %
              4294967296)
          (lr +
            (min length (bankRemain
              (spi_nor_write_bar exec dev k (dev.read_op.addrVal % 4294967296)).2.1)) %
              4294967296)
          (tr ++ (spi_nor_write_bar exec dev k (dev.read_op.addrVal % 4294967296)).2.2.2 ++
            (spi_nor_read_step exec
              { (spi_nor_write_bar exec dev k (dev.read_op.addrVal % 4294967296)).2.1 with
                  read_op.dataNbytes :=
                    (min length (bankRemain
                      (spi_nor_write_bar exec dev k (dev.read_op.addrVal % 4294967296)).2.1)) %
                      4294967296 }
              (spi_nor_write_bar exec dev k (dev.read_op.addrVal % 4294967296)).2.2.1).2.2.2)) ∨
    (length ≠ 0 ∧ dev.flags &&& SPI_NOR_USE_BANK = 0 ∧
      (spi_nor_read_step exec
        { dev with read_op.dataNbytes := length % 4294967296 } k).1 ≠ 0 ∧
      spi_nor_read_loop exec (fuel + 1) dev k length lr tr =
        some ((spi_nor_read_step exec
            { dev with read_op.dataNbytes := length % 4294967296 } k).1,
          (spi_nor_read_step exec
            { dev with read_op.dataNbytes := length % 4294967296 } k).2.1, lr,
          tr ++ (spi_nor_read_step exec
            { dev with read_op.dataNbytes := length % 4294967296 } k).2.2.2)) ∨
    (length ≠ 0 ∧ dev.flags &&& SPI_NOR_USE_BANK = 0 ∧
      (spi_nor_read_step exec
        { dev with read_op.dataNbytes := length % 4294967296 } k).1 = 0 ∧
      spi_nor_read_loop exec (fuel + 1) dev k length lr tr =
        spi_nor_read_loop exec fuel
          (spi_nor_read_step exec
            { dev with read_op.dataNbytes := length % 4294967296 } k).2.1
          (spi_nor_read_step exec
            { dev with read_op.dataNbytes := length % 4294967296 } k).2.2.1
          (length - length % 4294967296) (lr + length % 4294967296)
          (tr ++ (spi_nor_read_step exec
            { dev with read_op.dataNbytes := length % 4294967296 } k).2.2.2)) := by
  simp only [spi_nor_read_loop]
  split_ifs with h1 h2 h3 h4 h5 h6
  · exact Or.inl ⟨h1, h2, rfl⟩
  · exact Or.inr (Or.inl ⟨h1, by simpa using h2, rfl⟩)
  · exact Or.inr (Or.inr (Or.inl ⟨h1, h3, h4, rfl⟩))
  · exact Or.inr (Or.inr (Or.inr (Or.inl ⟨h1, h3, by simpa using h4, h5, rfl⟩)))
  · exact Or.inr (Or.inr (Or.inr (Or.inr (Or.inl
      ⟨h1, h3, by simpa using h4, by simpa using h5, rfl⟩))))
  · exact Or.inr (Or.inr (Or.inr (Or.inr (Or.inr (Or.inl
      ⟨h1, by simpa using h3, h6, rfl⟩)))))
  · exact Or.inr (Or.inr (Or.inr (Or.inr (Or.inr (Or.inr
      ⟨h1, by simpa using h3, by simpa using h6, rfl⟩)))))

theorem dataNbytes_update_frame (dev : nor_device) (n : Nat) :
    frame_eq ({ dev with read_op.dataNbytes := n }).read_op dev.read_op :=
  ⟨rfl, rfl, rfl, rfl, rfl, rfl, rfl⟩

theorem spi_nor_read_loop_frame (exec : Nat → Int) :
    ∀ fuel dev k length lr tr r,
      spi_nor_read_loop exec fuel dev k length lr tr = some r →
      frame_eq r.2.1.read_op dev.read_op := by
  intro fuel
  induction fuel with
  | zero =>
    intro dev k length lr tr r h
    simp [spi_nor_read_loop] at h
  | succ fuel ih =>
    intro dev k length lr tr r h
    rcases spi_nor_read_loop_succ exec fuel dev k length lr tr with
      ⟨_, _, he⟩ | ⟨_, _, he⟩ | ⟨_, _, _, he⟩ | ⟨_, _, _, _, he⟩ |
      ⟨_, _, _, _, he⟩ | ⟨_, _, _, he⟩ | ⟨_, _, _, he⟩
    · obtain rfl := Option.some.inj (he.symm.trans h)
      exact frame_eq_of_eq (clean_bar_read_op exec dev k)
    · obtain rfl := Option.some.inj (he.symm.trans h)
      exact frame_eq_refl _
    · obtain rfl := Option.some.inj (he.symm.trans h)
      exact frame_eq_of_eq (write_bar_read_op exec dev k _)
    · obtain rfl := Option.some.inj (he.symm.trans h)
      exact frame_eq_trans (read_step_frame exec _ _)
        (frame_eq_trans (dataNbytes_update_frame _ _)
          (frame_eq_of_eq (write_bar_read_op exec dev k _)))
    · rw [he] at h
      exact frame_eq_trans (ih _ _ _ _ _ _ h)
        (frame_eq_trans (read_step_frame exec _ _)
          (frame_eq_trans (dataNbytes_update_frame _ _)
            (frame_eq_of_eq (write_bar_read_op exec dev k _))))
    · obtain rfl := Option.some.inj (he.symm.trans h)
      exact frame_eq_trans (read_step_frame exec _ _) (dataNbytes_update_frame _ _)
    · rw [he] at h
      exact frame_eq_trans (ih _ _ _ _ _ _ h)
        (frame_eq_trans (read_step_frame exec _ _) (dataNbytes_update_frame _ _))

/-- Claim C9: a `spi_nor_read` call mutates only the template's address
value, data buffer pointer and data byte-count; the opcode, opcode
width, address width, every per-phase bus-width field and the data
direction hold the same values after the call as before it. -/
theorem read_preserves_template_frame (exec : Nat → Int) (fuel : Nat)
    (dev : nor_device) (offset buffer length : Nat)
    (r : Int × nor_device × Nat × List Txn)
    (h : spi_nor_read exec fuel dev offset buffer length = some r) :
    frame_eq r.2.1.read_op dev.read_op := by
  unfold spi_nor_read at h
  exact frame_eq_trans (spi_nor_read_loop_frame exec fuel _ 0
    (length % 18446744073709551616) 0 [] r h) ⟨rfl, rfl, rfl, rfl, rfl, rfl, rfl⟩

/-- Concrete device used by the read witnesses: non-banked, 16 MiB. -/
def dev0 : nor_device :=
  { flags := 0, size := 0x1000000, selected_bank := 0,
    bank_read_cmd := 0, bank_write_cmd := 0, read_op := op0 }

/-- Witness for claim C9: a 4-byte non-banked read at offset 0. -/
theorem read_preserves_template_frame_witness :
    spi_nor_read (fun _ => 0) 2 dev0 0 0 4 =
      some (0, { dev0 with read_op.addrVal := 4, read_op.dataBuf := 4, read_op.dataNbytes := 4 }, 4, [Txn.dirmap_read 0 4 0]) ∧
    frame_eq (0, { dev0 with read_op.addrVal := 4, read_op.dataBuf := 4, read_op.dataNbytes := 4 }, 4,
      ([Txn.dirmap_read 0 4 0] : List Txn)).2.1.read_op dev0.read_op := by
  refine ⟨by rfl, ?_⟩
  exact read_preserves_template_frame (fun _ => 0) 2 dev0 0 0 4 _ (by rfl)

theorem write_bar_fail_ne_nil (exec : Nat → Int) (dev : nor_device) (k off : Nat)
    (h : (spi_nor_write_bar exec dev k off).1 ≠ 0) :
    (spi_nor_write_bar exec dev k off).2.2.2 ≠ [] := by
  rcases spi_nor_write_bar_spec exec dev k off with
    ⟨_, he⟩ | ⟨_, _, he⟩ | ⟨_, _, _, he⟩ | ⟨_, _, _, he⟩
  · rw [he] at h
    exact absurd rfl h
  · rw [he]
    simp
  · rw [he]
    simp
  · rw [he] at h
    exact absurd rfl h

theorem bankSelectFailed_append (tr t : List Txn) (h : t ≠ []) :
    bankSelectFailed (tr ++ t) = bankSelectFailed t := by
  unfold bankSelectFailed
  rw [List.getLast?_append_of_ne_nil tr h]

theorem read_step_fail_goodBytes (exec : Nat → Int) (dev : nor_device) (k : Nat)
    (h : (spi_nor_read_step exec dev k).1 ≠ 0) :
    goodBytes (spi_nor_read_step exec dev k).2.2.2 = 0 := by
  obtain ⟨ht, hne⟩ := read_step_fail_trace exec dev k h
  rw [ht]
  simp [goodBytes, hne, clean_bar_goodBytes]

theorem read_step_ok_trace (exec : Nat → Int) (dev : nor_device) (k : Nat)
    (h : (spi_nor_read_step exec dev k).1 = 0) :
    (spi_nor_read_step exec dev k).2.2.2 =
      [Txn.dirmap_read dev.read_op.addrVal dev.read_op.dataNbytes 0] := by
  rw [read_step_ok_spec exec dev k h]

theorem read_step_ok_goodBytes (exec : Nat → Int) (dev : nor_device) (k : Nat)
    (h : (spi_nor_read_step exec dev k).1 = 0) :
    goodBytes (spi_nor_read_step exec dev k).2.2.2 = dev.read_op.dataNbytes := by
  rw [read_step_ok_trace exec dev k h]
  simp [goodBytes]

theorem dataNbytes_update_val (dev : nor_device) (n : Nat) :
    ({ dev with read_op.dataNbytes := n }).read_op.dataNbytes = n := rfl

theorem spi_nor_read_loop_bytes (exec : Nat → Int) :
    ∀ fuel dev k length lr tr r,
      spi_nor_read_loop exec fuel dev k length lr tr = some r →
      goodBytes r.2.2.2 + lr = r.2.2.1 + goodBytes tr ∧
      (r.1 = 0 → r.2.2.1 = lr + length) := by
  intro fuel
  induction fuel with
  | zero =>
    intro dev k length lr tr r h
    simp [spi_nor_read_loop] at h
  | succ fuel ih =>
    intro dev k length lr tr r h
    rcases spi_nor_read_loop_succ exec fuel dev k length lr tr with
      ⟨hlen, _, he⟩ | ⟨hlen, _, he⟩ | ⟨_, _, hwb, he⟩ | ⟨_, _, hwb, hst, he⟩ |
      ⟨_, _, hwb, hst, he⟩ | ⟨_, _, hst, he⟩ | ⟨_, _, hst, he⟩
    · obtain rfl := Option.some.inj (he.symm.trans h)
      subst hlen
      refine ⟨?_, fun _ => ?_⟩ <;>
        (simp [goodBytes_append, clean_bar_goodBytes]; try omega)
    · obtain rfl := Option.some.inj (he.symm.trans h)
      subst hlen
      refine ⟨?_, fun _ => ?_⟩ <;> (simp [goodBytes]; try omega)
    · obtain rfl := Option.some.inj (he.symm.trans h)
      refine ⟨?_, fun h0 => absurd h0 hwb⟩
      simp [goodBytes_append, write_bar_goodBytes]
      omega
    · obtain rfl := Option.some.inj (he.symm.trans h)
      refine ⟨?_, fun h0 => absurd h0 hst⟩
      simp [goodBytes_append, write_bar_goodBytes,
        read_step_fail_goodBytes _ _ _ hst]
      omega
    · rw [he] at h
      obtain ⟨hacc, hok⟩ := ih _ _ _ _ _ _ h
      rw [goodBytes_append, goodBytes_append, write_bar_goodBytes,
        read_step_ok_goodBytes exec _ _ hst, dataNbytes_update_val] at hacc
      have hle : (min length (bankRemain
          (spi_nor_write_bar exec dev k (dev.read_op.addrVal % 4294967296)).2.1)) %
            4294967296 ≤ length :=
        le_trans (Nat.mod_le _ _) (min_le_left _ _)
      refine ⟨?_, fun h0 => ?_⟩
      · omega
      · rw [hok h0]
        omega
    · obtain rfl := Option.some.inj (he.symm.trans h)
      refine ⟨?_, fun h0 => absurd h0 hst⟩
      simp [goodBytes_append, read_step_fail_goodBytes _ _ _ hst]
      omega
    · rw [he] at h
      obtain ⟨hacc, hok⟩ := ih _ _ _ _ _ _ h
      rw [goodBytes_append, read_step_ok_goodBytes exec _ _ hst,
        dataNbytes_update_val] at hacc
      have hle : length % 4294967296 ≤ length := Nat.mod_le _ _
      refine ⟨?_, fun h0 => ?_⟩
      · omega
      · rw [hok h0]
        omega

/-- Claim C10: the bytes-read output of `spi_nor_read` is zeroed on entry
and accumulated per successful chunk, so on every return — success or
error — it equals the total bytes of the bulk chunk transactions that
completed successfully before the return (in particular 0 when no chunk
completed), and a success return reports exactly the requested length. -/
theorem read_bytes_read_accounting (exec : Nat → Int) (fuel : Nat)
    (dev : nor_device) (offset buffer length : Nat)
    (r : Int × nor_device × Nat × List Txn)
    (h : spi_nor_read exec fuel dev offset buffer length = some r) :
    r.2.2.1 = goodBytes r.2.2.2 ∧
    (r.1 = 0 → r.2.2.1 = length % 18446744073709551616) := by
  unfold spi_nor_read at h
  obtain ⟨hacc, hok⟩ := spi_nor_read_loop_bytes exec fuel _ 0 _ 0 [] r h
  simp only [goodBytes] at hacc
  exact ⟨by omega, fun h0 => by rw [hok h0]; omega⟩

/-- Witness for claim C10: a 4-byte non-banked read at offset 8. -/
theorem read_bytes_read_accounting_witness :
    spi_nor_read (fun _ => 0) 2 dev0 8 0 4 =
      some (0, { dev0 with read_op.addrVal := 12, read_op.dataBuf := 4, read_op.dataNbytes := 4 }, 4, [Txn.dirmap_read 8 4 0]) ∧
    (((0 : Int), { dev0 with read_op.addrVal := 12, read_op.dataBuf := 4, read_op.dataNbytes := 4 }, (4 : Nat),
      [Txn.dirmap_read 8 4 0]).2.2.1 =
        goodBytes ((0 : Int), { dev0 with read_op.addrVal := 12, read_op.dataBuf := 4, read_op.dataNbytes := 4 }, (4 : Nat),
          [Txn.dirmap_read 8 4 0]).2.2.2 ∧
     (((0 : Int), { dev0 with read_op.addrVal := 12, read_op.dataBuf := 4, read_op.dataNbytes := 4 }, (4 : Nat),
       [Txn.dirmap_read 8 4 0]).1 = 0 →
      ((0 : Int), { dev0 with read_op.addrVal := 12, read_op.dataBuf := 4, read_op.dataNbytes := 4 }, (4 : Nat),
       [Txn.dirmap_read 8 4 0]).2.2.1 = 4 % 18446744073709551616)) :=
  ⟨by rfl, read_bytes_read_accounting (fun _ => 0) 2 dev0 8 0 4 _ (by rfl)⟩

theorem dataNbytes_update_flags (dev : nor_device) (n : Nat) :
    ({ dev with read_op.dataNbytes := n }).flags = dev.flags := rfl

theorem dataNbytes_update_bank (dev : nor_device) (n : Nat) :
    ({ dev with read_op.dataNbytes := n }).selected_bank = dev.selected_bank := rfl

theorem dataNbytes_update_addrVal (dev : nor_device) (n : Nat) :
    ({ dev with read_op.dataNbytes := n }).read_op.addrVal =
      dev.read_op.addrVal := rfl

theorem spi_nor_read_loop_bank (exec : Nat → Int) :
    ∀ fuel dev k length lr tr r,
      dev.flags &&& SPI_NOR_USE_BANK ≠ 0 →
      spi_nor_read_loop exec fuel dev k length lr tr = some r →
      r.2.1.selected_bank = 0 ∨
        (r.1 ≠ 0 ∧ bankSelectFailed r.2.2.2 = true) := by
  intro fuel
  induction fuel with
  | zero =>
    intro dev k length lr tr r _ h
    simp [spi_nor_read_loop] at h
  | succ fuel ih =>
    intro dev k length lr tr r hbk h
    rcases spi_nor_read_loop_succ exec fuel dev k length lr tr with
      ⟨_, _, he⟩ | ⟨_, hnb, he⟩ | ⟨_, _, hwb, he⟩ | ⟨_, _, hwb, hst, he⟩ |
      ⟨_, _, hwb, hst, he⟩ | ⟨_, hnb, hst, he⟩ | ⟨_, hnb, hst, he⟩
    · obtain rfl := Option.some.inj (he.symm.trans h)
      exact Or.inl (clean_bar_bank exec dev k)
    · exact absurd hnb hbk
    · obtain rfl := Option.some.inj (he.symm.trans h)
      refine Or.inr ⟨hwb, ?_⟩
      show bankSelectFailed (tr ++
        (spi_nor_write_bar exec dev k (dev.read_op.addrVal % 4294967296)).2.2.2) = true
      rw [bankSelectFailed_append _ _ (write_bar_fail_ne_nil exec dev k _ hwb)]
      exact write_bar_fail_last exec dev k _ hwb
    · obtain rfl := Option.some.inj (he.symm.trans h)
      exact Or.inl (read_step_fail_bank exec _ _ hst)
    · rw [he] at h
      refine ih _ _ _ _ _ _ ?_ h
      rw [read_step_flags, dataNbytes_update_flags, write_bar_flags]
      exact hbk
    · exact absurd hnb hbk
    · exact absurd hnb hbk

/-- Banked 32 MiB device used by concrete banked-read scenarios: banking
enabled, bank 0 cached, generic extended-address opcodes. -/
def devB : nor_device :=
  { flags := SPI_NOR_USE_BANK, size := 0x2000000, selected_bank := 0,
    bank_read_cmd := SPINOR_OP_RDEAR, bank_write_cmd := SPINOR_OP_WREAR,
    read_op := op0 }

/-- Counterexample to claim C2 as stated: a banked read that starts one
byte before the bank-1/bank-2 boundary and spans it. The bank-1 chunk
succeeds; the write-enable of the bank-select to bank 2 then fails (-5)
and `spi_nor_read` returns that error without invoking the bank cleanup,
leaving the cached selected_bank at 1, not 0. -/
theorem read_error_can_leave_nonzero_bank :
    devB.flags &&& SPI_NOR_USE_BANK ≠ 0 ∧
    (spi_nor_read (fun k => if k = 3 then -5 else 0) 10 devB 33554431 0 2).map
        (fun r => (r.1, r.2.1.selected_bank)) = some (-5, 1) := by
  constructor
  · decide
  · rfl

/-- Claim C2 (amended): after a `spi_nor_read` call with banking enabled
the cached selected_bank is 0 on every return, except when the return is
the error of a failed bank-select step — recognizable as the transaction
trace ending in a failed write-enable or a failed bank-register write —
in which case the cache keeps the value it had when that step began. -/
theorem read_leaves_bank_zero_unless_bank_select_fails (exec : Nat → Int)
    (fuel : Nat) (dev : nor_device) (offset buffer length : Nat)
    (r : Int × nor_device × Nat × List Txn)
    (hbk : dev.flags &&& SPI_NOR_USE_BANK ≠ 0)
    (h : spi_nor_read exec fuel dev offset buffer length = some r) :
    r.2.1.selected_bank = 0 ∨
      (r.1 ≠ 0 ∧ bankSelectFailed r.2.2.2 = true) := by
  unfold spi_nor_read at h
  refine spi_nor_read_loop_bank exec fuel _ 0 _ 0 [] r ?_ h
  exact hbk

/-- Witness for claim C2 (amended): a successful 4-byte banked read in
bank 0. -/
theorem read_leaves_bank_zero_unless_bank_select_fails_witness :
    devB.flags &&& SPI_NOR_USE_BANK ≠ 0 ∧
    spi_nor_read (fun _ => 0) 2 devB 0 0 4 =
      some (0, { devB with read_op.addrVal := 4, read_op.dataBuf := 4, read_op.dataNbytes := 4 }, 4, [Txn.dirmap_read 0 4 0]) ∧
    (((0 : Int), { devB with read_op.addrVal := 4, read_op.dataBuf := 4, read_op.dataNbytes := 4 }, (4 : Nat),
        [Txn.dirmap_read 0 4 0]).2.1.selected_bank = 0 ∨
      (((0 : Int), { devB with read_op.addrVal := 4, read_op.dataBuf := 4, read_op.dataNbytes := 4 }, (4 : Nat),
        [Txn.dirmap_read 0 4 0]).1 ≠ 0 ∧
       bankSelectFailed ((0 : Int), { devB with read_op.addrVal := 4, read_op.dataBuf := 4, read_op.dataNbytes := 4 }, (4 : Nat),
        [Txn.dirmap_read 0 4 0]).2.2.2 = true)) :=
  ⟨by decide, by rfl,
    read_leaves_bank_zero_unless_bank_select_fails (fun _ => 0) 2 devB 0 0 4 _
      (by decide) (by rfl)⟩

theorem read_step_ok_addrVal (exec : Nat → Int) (dev : nor_device) (k : Nat)
    (h : (spi_nor_read_step exec dev k).1 = 0) :
    (spi_nor_read_step exec dev k).2.1.read_op.addrVal =
      (dev.read_op.addrVal + dev.read_op.dataNbytes) % 18446744073709551616 := by
  rw [read_step_ok_spec exec dev k h]

/-- Arithmetic core of the clamping invariant: with the chunk address and
the remaining length staying below the 4 GiB mark, the clamped chunk —
computed with the source's 32-bit bank product and 64-bit subtraction —
never reaches past the end of the current bank window. -/
theorem chunk_stays_in_window (a length : Nat) (ha : a + length ≤ 4294967296) :
    a + (min length
      ((18446744073709551616 +
        (BANK_SIZE * ((a % 4294967296) % 4294967296 / BANK_SIZE % 256 + 1)) %
          4294967296 -
        a % 18446744073709551616) % 18446744073709551616)) % 4294967296 ≤
      (a / BANK_SIZE + 1) * BANK_SIZE := by
  simp only [BANK_SIZE]
  omega

theorem spi_nor_read_loop_inBank (exec : Nat → Int) :
    ∀ fuel dev k length lr tr r,
      dev.flags &&& SPI_NOR_USE_BANK ≠ 0 →
      dev.read_op.addrVal + length ≤ 4294967296 →
      (∀ t ∈ tr, txnInBank t = true) →
      spi_nor_read_loop exec fuel dev k length lr tr = some r →
      ∀ t ∈ r.2.2.2, txnInBank t = true := by
  intro fuel
  induction fuel with
  | zero =>
    intro dev k length lr tr r _ _ _ h
    simp [spi_nor_read_loop] at h
  | succ fuel ih =>
    intro dev k length lr tr r hbk hcap htr h
    rcases spi_nor_read_loop_succ exec fuel dev k length lr tr with
      ⟨_, _, he⟩ | ⟨_, hnb, he⟩ | ⟨_, _, hwb, he⟩ | ⟨_, _, hwb, hst, he⟩ |
      ⟨_, _, hwb, hst, he⟩ | ⟨_, hnb, hst, he⟩ | ⟨_, hnb, hst, he⟩
    · obtain rfl := Option.some.inj (he.symm.trans h)
      intro t ht
      simp only [List.mem_append] at ht
      rcases ht with ht | ht
      · exact htr t ht
      · exact clean_bar_inBank exec dev k t ht
    · exact absurd hnb hbk
    · obtain rfl := Option.some.inj (he.symm.trans h)
      intro t ht
      simp only [List.mem_append] at ht
      rcases ht with ht | ht
      · exact htr t ht
      · exact write_bar_inBank exec dev k _ t ht
    · obtain rfl := Option.some.inj (he.symm.trans h)
      have haddr : (spi_nor_write_bar exec dev k
          (dev.read_op.addrVal % 4294967296)).2.1.read_op.addrVal =
          dev.read_op.addrVal :=
        congrArg spi_mem_op.addrVal (write_bar_read_op exec dev k _)
      have hbankv := write_bar_ok_bank exec dev k
        (dev.read_op.addrVal % 4294967296) hwb
      have hchunk : dev.read_op.addrVal +
          (min length (bankRemain (spi_nor_write_bar exec dev k
            (dev.read_op.addrVal % 4294967296)).2.1)) % 4294967296 ≤
          (dev.read_op.addrVal / BANK_SIZE + 1) * BANK_SIZE := by
        simp only [bankRemain, haddr, hbankv]
        exact chunk_stays_in_window dev.read_op.addrVal length hcap
      intro t ht
      simp only [List.mem_append] at ht
      rcases ht with (ht | ht) | ht
      · exact htr t ht
      · exact write_bar_inBank exec dev k _ t ht
      · rw [(read_step_fail_trace exec _ _ hst).1] at ht
        rcases List.mem_cons.mp ht with rfl | ht
        · simp only [txnInBank, dataNbytes_update_val, dataNbytes_update_addrVal,
            haddr, decide_eq_true_eq]
          exact hchunk
        · exact clean_bar_inBank exec _ _ t ht
    · have haddr : (spi_nor_write_bar exec dev k
          (dev.read_op.addrVal % 4294967296)).2.1.read_op.addrVal =
          dev.read_op.addrVal :=
        congrArg spi_mem_op.addrVal (write_bar_read_op exec dev k _)
      have hbankv := write_bar_ok_bank exec dev k
        (dev.read_op.addrVal % 4294967296) hwb
      have hchunk : dev.read_op.addrVal +
          (min length (bankRemain (spi_nor_write_bar exec dev k
            (dev.read_op.addrVal % 4294967296)).2.1)) % 4294967296 ≤
          (dev.read_op.addrVal / BANK_SIZE + 1) * BANK_SIZE := by
        simp only [bankRemain, haddr, hbankv]
        exact chunk_stays_in_window dev.read_op.addrVal length hcap
      have hnble : (min length (bankRemain (spi_nor_write_bar exec dev k
          (dev.read_op.addrVal % 4294967296)).2.1)) % 4294967296 ≤ length :=
        le_trans (Nat.mod_le _ _) (min_le_left _ _)
      have haddr2 := read_step_ok_addrVal exec _ _ hst
      rw [dataNbytes_update_val, dataNbytes_update_addrVal, haddr] at haddr2
      rw [he] at h
      refine ih _ _ _ _ _ _ ?_ ?_ ?_ h
      · rw [read_step_flags, dataNbytes_update_flags, write_bar_flags]
        exact hbk
      · rw [haddr2]
        omega
      · intro t ht
        simp only [List.mem_append] at ht
        rcases ht with (ht | ht) | ht
        · exact htr t ht
        · exact write_bar_inBank exec dev k _ t ht
        · rw [read_step_ok_trace exec _ _ hst] at ht
          rcases List.mem_cons.mp ht with rfl | ht
          · simp only [txnInBank, dataNbytes_update_val, dataNbytes_update_addrVal,
              haddr, decide_eq_true_eq]
            exact hchunk
          · simp at ht
    · exact absurd hnb hbk
    · exact absurd hnb hbk

/-- Claim C1 (amended): with banking enabled, for every offset and length
within the declared capacity — provided the capacity does not exceed
4294967296 bytes (4 GiB, so the span stays below the point where the
source's 32-bit computation of the bank-window product overflows) — no
bulk chunk transaction issued by `spi_nor_read` has a data span crossing
a BANK_SIZE-aligned bank-window boundary. -/
theorem read_chunks_never_cross_bank_boundary (exec : Nat → Int) (fuel : Nat)
    (dev : nor_device) (offset buffer length : Nat)
    (r : Int × nor_device × Nat × List Txn)
    (hbk : dev.flags &&& SPI_NOR_USE_BANK ≠ 0)
    (hcap : offset + length ≤ 4294967296)
    (h : spi_nor_read exec fuel dev offset buffer length = some r) :
    ∀ t ∈ r.2.2.2, txnInBank t = true := by
  unfold spi_nor_read at h
  refine spi_nor_read_loop_inBank exec fuel _ 0 _ 0 [] r ?_ ?_ ?_ h
  · exact hbk
  · show offset % 4294967296 + length % 18446744073709551616 ≤ 4294967296
    omega
  · intro t ht
    simp at ht

/-- Banked device whose declared capacity exceeds 4 GiB (size is held in
a 64-bit field; the bank register itself is one byte). -/
def devB8G : nor_device := { devB with size := 0x200000000 }

/-- Counterexample to claim C1 as stated: on a banked device declaring
8 GiB of capacity, the in-capacity read at offset 0xFF800000 of length
0x1000000 selects bank 255, where the source's `unsigned int` product
`BANK_SIZE * (selected_bank + 1)` wraps to 0 and the 64-bit subtraction
yields a huge remainder, so no clamping happens: the single issued chunk
[0xFF800000, 0x100800000) crosses the BANK_SIZE-aligned boundary at
0x100000000. -/
theorem read_chunk_crosses_bank_boundary_beyond_4GiB :
    devB8G.flags &&& SPI_NOR_USE_BANK ≠ 0 ∧
    4286578688 + 16777216 ≤ devB8G.size ∧
    (spi_nor_read (fun _ => 0) 3 devB8G 4286578688 0 16777216).map
        (fun r => r.2.2.2) =
      some [Txn.write_en 0, Txn.reg_write SPINOR_OP_WREAR 255 0,
        Txn.dirmap_read 4286578688 16777216 0, Txn.write_en 0,
        Txn.reg_write SPINOR_OP_WREAR 0 0] ∧
    txnInBank (Txn.dirmap_read 4286578688 16777216 0) = false := by
  exact ⟨by decide, by decide, by rfl, by decide⟩

/-- Witness for claim C1 (amended): the 32 MiB device scenario — a 4 MiB
banked read starting at 15 MiB, split at the bank-0/bank-1 boundary. -/
theorem read_chunks_never_cross_bank_boundary_witness :
    devB.flags &&& SPI_NOR_USE_BANK ≠ 0 ∧
    15728640 + 4194304 ≤ 4294967296 ∧
    (∀ t ∈ ((0 : Int), { devB with read_op.addrVal := 19922944, read_op.dataBuf := 4194304, read_op.dataNbytes := 3145728 }, (4194304 : Nat),
        [Txn.dirmap_read 15728640 1048576 0, Txn.write_en 0,
         Txn.reg_write SPINOR_OP_WREAR 1 0, Txn.dirmap_read 16777216 3145728 0,
         Txn.write_en 0, Txn.reg_write SPINOR_OP_WREAR 0 0]).2.2.2,
      txnInBank t = true) :=
  ⟨by decide, by decide,
    read_chunks_never_cross_bank_boundary (fun _ => 0) 10 devB 15728640 0
      4194304 _ (by decide) (by decide) (by rfl)⟩

/-!  Initialization (`spi_nor_init`) and reset (`spi_nor_reset`). -/

/-- Oracle results for the hardware steps of `spi_nor_init`: the ID read
(result and delivered byte) and the results of the dispatched
sub-sequences — Macronix octal-DTR enable, Macronix quad enable,
Spansion-style quad enable — plus the bank register read (result and
delivered byte). -/
structure init_env where
  id_read : Int × Nat
  octal_ret : Int
  mx_quad_ret : Int
  sp_quad_ret : Int
  bar_read : Int × Nat
deriving DecidableEq, Repr

/-- Sub-sequences dispatched by `spi_nor_init`, in dispatch order. -/
inductive InitAct where
  | octal_enable
  | macronix_quad
  | spansion_quad
  | bank_read
deriving DecidableEq, Repr

/-- The default read template installed at the top of `spi_nor_init`
before the platform hook runs: single-line, 3-byte-address basic read. -/
def spi_nor_init_defaults (dev : nor_device) : nor_device :=
  { dev with
      read_op.cmdOpcode := SPI_NOR_OP_READ,
      read_op.cmdNbytes := 1,
      read_op.cmdBuswidth := SPI_MEM_BUSWIDTH_1_LINE,
      read_op.addrNbytes := 3,
      read_op.addrBuswidth := SPI_MEM_BUSWIDTH_1_LINE,
      read_op.dataBuswidth := SPI_MEM_BUSWIDTH_1_LINE,
      read_op.dataDir := Dir.din }

/-- Embedding of `spi_nor_init`. `plat` is the platform hook
`plat_get_nor_data`, which may rewrite the whole descriptor and signals
misconfiguration with a nonzero result. The WARN branch only logs and is
not represented. Returns the C result, the final device state and the
dispatched sub-sequences. -/
def spi_nor_init (plat : nor_device → Int × nor_device) (env : init_env)
    (dev0 : nor_device) : Int × nor_device × List InitAct :=
  if (plat (spi_nor_init_defaults dev0)).1 ≠ 0 then
    (-EINVAL, (plat (spi_nor_init_defaults dev0)).2, [])
  else
    let dev := (plat (spi_nor_init_defaults dev0)).2
    if env.id_read.1 ≠ 0 then (env.id_read.1, dev, [])
    else
      if dev.read_op.cmdNbytes = 2 then
        if dev.read_op.cmdBuswidth = 8 ∧ env.id_read.2 % 256 = MACRONIX_ID then
          (env.octal_ret, dev, [InitAct.octal_enable])
        else (-EOPNOTSUPP, dev, [])
      else
        let dev :=
          if dev.flags &&& SPI_NOR_USE_BANK ≠ 0 then
            if env.id_read.2 % 256 = SPANSION_ID then
              { dev with bank_read_cmd := SPINOR_OP_BRRD,
                         bank_write_cmd := SPINOR_OP_BRWR }
            else
              { dev with bank_read_cmd := SPINOR_OP_RDEAR,
                         bank_write_cmd := SPINOR_OP_WREAR }
          else dev
        let quad : Int × List InitAct :=
          if dev.read_op.dataBuswidth = 4 then
            if env.id_read.2 % 256 = MACRONIX_ID then
              (env.mx_quad_ret, [InitAct.macronix_quad])
            else if env.id_read.2 % 256 = MICRON_ID then (0, [])
            else (env.sp_quad_ret, [InitAct.spansion_quad])
          else (0, [])
        if quad.1 = 0 ∧ dev.flags &&& SPI_NOR_USE_BANK ≠ 0 then
          if env.bar_read.1 = 0 then
            (0, { dev with selected_bank := env.bar_read.2 % 256 },
              quad.2 ++ [InitAct.bank_read])
          else (env.bar_read.1, dev, quad.2 ++ [InitAct.bank_read])
        else (quad.1, dev, quad.2)

/-- Claim C7: when the post-hook read template has a 2-byte command
opcode, `spi_nor_init` attempts octal-DTR enable only if the command bus
width is 8 lines and the device ID is Macronix, returning that result
directly; any other combination under the 2-byte-opcode condition
returns -EOPNOTSUPP; in both cases neither banking setup nor any quad
enable is dispatched. -/
theorem init_octal_dispatch (plat : nor_device → Int × nor_device)
    (env : init_env) (dev0 devH : nor_device) (idv : Nat)
    (hplat : plat (spi_nor_init_defaults dev0) = (0, devH))
    (hid : env.id_read = (0, idv))
    (h2 : devH.read_op.cmdNbytes = 2) :
    (devH.read_op.cmdBuswidth = 8 ∧ idv % 256 = MACRONIX_ID →
      spi_nor_init plat env dev0 =
        (env.octal_ret, devH, [InitAct.octal_enable])) ∧
    (¬(devH.read_op.cmdBuswidth = 8 ∧ idv % 256 = MACRONIX_ID) →
      spi_nor_init plat env dev0 = (-EOPNOTSUPP, devH, [])) := by
  unfold spi_nor_init
  rw [hplat, hid]
  by_cases hc : devH.read_op.cmdBuswidth = 8 ∧ idv % 256 = MACRONIX_ID
  · refine ⟨fun _ => ?_, fun hn => absurd hc hn⟩
    simp [h2, hc]
  · refine ⟨fun hy => absurd hy hc, fun _ => ?_⟩
    simp [h2, hc]

/-- Oracle used by the init witness: a successful ID read delivering the
Macronix ID, all sub-sequences succeeding. -/
def env0 : init_env :=
  { id_read := (0, 0xC2), octal_ret := 0, mx_quad_ret := 0,
    sp_quad_ret := 0, bar_read := (0, 0) }

/-- Witness for claim C7: a hook that configures a 2-byte opcode with
8-line command bus on the default device; the ID read reports Macronix. -/
theorem init_octal_dispatch_witness :
    (fun d => ((0 : Int),
        ({ d with read_op.cmdNbytes := 2, read_op.cmdBuswidth := 8 } : nor_device)))
      (spi_nor_init_defaults dev0) =
      (0, { dev0 with read_op.cmdNbytes := 2, read_op.cmdBuswidth := 8 }) ∧
    env0.id_read = (0, 0xC2) ∧
    ({ dev0 with read_op.cmdNbytes := 2, read_op.cmdBuswidth := 8 } : nor_device).read_op.cmdNbytes = 2 ∧
    (({ dev0 with read_op.cmdNbytes := 2, read_op.cmdBuswidth := 8 } : nor_device).read_op.cmdBuswidth = 8 ∧
        (0xC2 : Nat) % 256 = MACRONIX_ID →
      spi_nor_init
        (fun d => ((0 : Int),
          ({ d with read_op.cmdNbytes := 2, read_op.cmdBuswidth := 8 } : nor_device)))
        env0 dev0 =
        (env0.octal_ret,
          { dev0 with read_op.cmdNbytes := 2, read_op.cmdBuswidth := 8 },
          [InitAct.octal_enable])) ∧
    (¬(({ dev0 with read_op.cmdNbytes := 2, read_op.cmdBuswidth := 8 } : nor_device).read_op.cmdBuswidth = 8 ∧
        (0xC2 : Nat) % 256 = MACRONIX_ID) →
      spi_nor_init
        (fun d => ((0 : Int),
          ({ d with read_op.cmdNbytes := 2, read_op.cmdBuswidth := 8 } : nor_device)))
        env0 dev0 =
        (-EOPNOTSUPP,
          { dev0 with read_op.cmdNbytes := 2, read_op.cmdBuswidth := 8 }, [])) := by
  refine ⟨rfl, rfl, rfl, ?_, ?_⟩
  · exact (init_octal_dispatch
      (fun d => ((0 : Int),
        ({ d with read_op.cmdNbytes := 2, read_op.cmdBuswidth := 8 } : nor_device)))
      env0 dev0
      { dev0 with read_op.cmdNbytes := 2, read_op.cmdBuswidth := 8 }
      0xC2 rfl rfl rfl).1
  · exact (init_octal_dispatch
      (fun d => ((0 : Int),
        ({ d with read_op.cmdNbytes := 2, read_op.cmdBuswidth := 8 } : nor_device)))
      env0 dev0
      { dev0 with read_op.cmdNbytes := 2, read_op.cmdBuswidth := 8 }
      0xC2 rfl rfl rfl).2

/-- Commands and the settle delay issued by `spi_nor_reset`. -/
inductive ResetAct where
  | cmd (opcode : Nat)
  | delay_us (n : Nat)
deriving DecidableEq, Repr

/-- The 2-byte software-reset opcode built by `spi_nor_reset` from a
1-byte base: the low byte repeats the base when the template's (uint16)
read opcode is palindromic, and is the complemented base byte
(`~base & 0xFF`) otherwise. -/
def srst_opcode (dev : nor_device) (base : Nat) : Nat :=
  if (dev.read_op.cmdOpcode &&& 0xFF00) >>> 8 = dev.read_op.cmdOpcode &&& 0x00FF
  then (base <<< 8) ||| (base &&& 0xFF)
  else (base <<< 8) ||| (0xFF ^^^ (base &&& 0xFF))

/-- Embedding of `spi_nor_reset`. `r1`/`r2` are the transport results of
the software-reset-enable and software-reset commands; both are 2-byte
8-line DTR commands whose opcodes follow the repeated/inverted
convention detected from the read template. When the template's opcode
width is not 2 bytes the function is a no-op returning success. -/
def spi_nor_reset (dev : nor_device) (r1 r2 : Int) : Int × List ResetAct :=
  if dev.read_op.cmdNbytes ≠ 2 then (0, [])
  else
    if r1 ≠ 0 then (r1, [ResetAct.cmd (srst_opcode dev SPI_NOR_OP_SRSTEN)])
    else if r2 ≠ 0 then
      (r2, [ResetAct.cmd (srst_opcode dev SPI_NOR_OP_SRSTEN),
            ResetAct.cmd (srst_opcode dev SPI_NOR_OP_SRST)])
    else
      (0, [ResetAct.cmd (srst_opcode dev SPI_NOR_OP_SRSTEN),
           ResetAct.cmd (srst_opcode dev SPI_NOR_OP_SRST),
           ResetAct.delay_us SPI_NOR_SRST_US])

/-- Claim C8: `spi_nor_reset` is a no-op returning success and issuing no
commands when the template opcode width is not 2 bytes; with a 2-byte
palindromic read opcode and both transport commands succeeding it issues
exactly software-reset-enable then software-reset, in that order, each
with the repeated-form 2-byte opcode `(opcode <<< 8) ||| opcode`,
followed by the fixed settle delay. -/
theorem reset_noop_and_palindromic_sequence (dev : nor_device) (r1 r2 : Int) :
    (dev.read_op.cmdNbytes ≠ 2 → spi_nor_reset dev r1 r2 = (0, [])) ∧
    (dev.read_op.cmdNbytes = 2 →
      (dev.read_op.cmdOpcode &&& 0xFF00) >>> 8 = dev.read_op.cmdOpcode &&& 0x00FF →
      r1 = 0 → r2 = 0 →
      spi_nor_reset dev r1 r2 =
        ((0 : Int), [ResetAct.cmd ((SPI_NOR_OP_SRSTEN <<< 8) ||| SPI_NOR_OP_SRSTEN),
             ResetAct.cmd ((SPI_NOR_OP_SRST <<< 8) ||| SPI_NOR_OP_SRST),
             ResetAct.delay_us SPI_NOR_SRST_US])) := by
  constructor
  · intro hne
    unfold spi_nor_reset
    rw [if_pos hne]
  · intro h2 hpal hr1 hr2
    subst hr1
    subst hr2
    unfold spi_nor_reset srst_opcode
    rw [if_neg (by simp [h2])]
    simp only [if_pos hpal]
    decide

/-- Octal-DTR device used by the reset witness: 2-byte palindromic read
opcode 0xEEEE. -/
def devO : nor_device :=
  { dev0 with read_op.cmdOpcode := 0xEEEE, read_op.cmdNbytes := 2 }

/-- Witness for claim C8: the palindromic branch on `devO` with both
commands succeeding, and the non-2-byte branch on `dev0`. -/
theorem reset_noop_and_palindromic_sequence_witness :
    devO.read_op.cmdNbytes = 2 ∧
    (devO.read_op.cmdOpcode &&& 0xFF00) >>> 8 = devO.read_op.cmdOpcode &&& 0x00FF ∧
    spi_nor_reset devO 0 0 =
      ((0 : Int), [ResetAct.cmd ((SPI_NOR_OP_SRSTEN <<< 8) ||| SPI_NOR_OP_SRSTEN),
           ResetAct.cmd ((SPI_NOR_OP_SRST <<< 8) ||| SPI_NOR_OP_SRST),
           ResetAct.delay_us SPI_NOR_SRST_US]) ∧
    dev0.read_op.cmdNbytes ≠ 2 ∧
    spi_nor_reset dev0 0 0 = (0, []) :=
  ⟨rfl, by decide, (reset_noop_and_palindromic_sequence devO 0 0).2 rfl
      (by decide) rfl rfl,
    by decide, (reset_noop_and_palindromic_sequence dev0 0 0).1 (by decide)⟩
